import Mathlib

/-!
Formal model of the Grocery-system backend (`src/server.ts`).

The server keeps five SQLite tables (`products`, `sales`, `sale_items`,
`withdrawals`, `stock_arrivals`) and mutates them through HTTP handlers,
each wrapped in a `better-sqlite3` transaction that commits on success and
rolls back completely when any statement throws.

Modelling conventions:
* SQLite `REAL` columns are modelled as exact rationals (`Rat`); the claims
  under study are bookkeeping identities, not floating-point rounding facts.
* `INTEGER PRIMARY KEY AUTOINCREMENT` columns are modelled by explicit
  `next_*` counters in the state.
* `DATETIME DEFAULT CURRENT_TIMESTAMP` is modelled at day granularity: the
  state carries `today : Nat` and every inserted row is stamped with it.
* A nullable foreign-key column is an `Option Nat`; `PRAGMA foreign_keys = ON`
  is modelled by making an insert fail when a non-null referenced product id
  has no matching row.
* Each transaction body is a function `DBState → Except String DBState`;
  `runTxn` turns it into the observable handler effect: the new state with
  response flag `true` (HTTP 200) on success, or the unchanged input state
  with flag `false` (HTTP 500) when the body throws.
* `better-sqlite3` refuses to bind a JavaScript `undefined` value
  (an absent JSON field), throwing a `TypeError`; request fields that the
  client may omit are `Option`s and binding `none` where the code would bind
  `undefined` is modelled as a failing statement.
-/

/-- Row of the `products` table. -/
structure Product where
  id : Nat
  name : String
  unit_type : String
  cost_price : Rat
  selling_price : Rat
  quantity : Rat
  min_stock : Rat
deriving DecidableEq

/-- Row of the `sales` table. -/
structure Sale where
  id : Nat
  total_amount : Rat
  total_profit : Rat
  created_at : Nat
deriving DecidableEq

/-- Row of the `sale_items` table. -/
structure SaleItem where
  id : Nat
  sale_id : Nat
  product_id : Nat
  quantity : Rat
  unit_price : Rat
  cost_price : Rat
  profit : Rat
deriving DecidableEq

/-- Row of the `withdrawals` table (`wtype` is the `type` column; the
`product_id` column is nullable). -/
structure Withdrawal where
  id : Nat
  wtype : String
  product_id : Option Nat
  amount : Rat
  description : String
  created_at : Nat
deriving DecidableEq

/-- Row of the `stock_arrivals` table. -/
structure StockArrival where
  id : Nat
  product_id : Nat
  quantity : Rat
  cost_price : Rat
  created_at : Nat
deriving DecidableEq

/-- The whole database, plus the autoincrement counters and the current date. -/
structure DBState where
  products : List Product
  sales : List Sale
  sale_items : List SaleItem
  withdrawals : List Withdrawal
  stock_arrivals : List StockArrival
  next_sale_id : Nat
  next_sale_item_id : Nat
  next_withdrawal_id : Nat
  next_arrival_id : Nat
  today : Nat
deriving DecidableEq

/-- One element of the `items` array of a `POST /api/sales` body. -/
structure SaleItemReq where
  product_id : Nat
  quantity : Rat
  selling_price : Rat
deriving DecidableEq

/-- Body of a `POST /api/withdrawals` request; `product_id = none` models a
JSON body with no `product_id` field (JavaScript `undefined`). -/
structure WithdrawalReq where
  wtype : String
  product_id : Option Nat
  amount : Rat
  description : String
deriving DecidableEq

/-- Body of a `POST /api/stock-arrivals` request. -/
structure ArrivalReq where
  product_id : Nat
  quantity : Rat
  cost_price : Rat
deriving DecidableEq

/-- Lookup `SELECT * FROM products WHERE id = ?` with `.get`: first matching row. -/
def findProduct (st : DBState) (pid : Nat) : Option Product :=
  st.products.find? (fun p => p.id == pid)

/-- Statement `UPDATE products SET quantity = quantity - ? WHERE id = ?`. -/
def applyItem (it : SaleItemReq) (ps : List Product) : List Product :=
  ps.map (fun p => if p.id == it.product_id then
    { p with quantity := p.quantity - it.quantity } else p)

/-- Sequential effect of the sale loop's quantity updates. -/
def applyItems (items : List SaleItemReq) (ps : List Product) : List Product :=
  match items with
  | [] => ps
  | it :: rest => applyItems rest (applyItem it ps)

/-- The `cost_price` the sale loop reads for a product id (`product.cost_price`
after `SELECT * FROM products WHERE id = ?`). -/
def costOf (ps : List Product) (pid : Nat) : Rat :=
  ((ps.find? (fun p => p.id == pid)).map Product.cost_price).getD 0

/-- Per-item amount accumulated by the sale loop:
`item.selling_price * item.quantity`. -/
def itemAmount (it : SaleItemReq) : Rat :=
  it.selling_price * it.quantity

/-- Per-item profit accumulated by the sale loop:
`(item.selling_price - product.cost_price) * item.quantity`. -/
def itemProfit (ps : List Product) (it : SaleItemReq) : Rat :=
  (it.selling_price - costOf ps it.product_id) * it.quantity

/-- The `sale_items` rows the sale loop inserts, reading cost prices from
`ps` and numbering rows from `nid`. -/
def loopItems (items : List SaleItemReq) (saleId nid : Nat) (ps : List Product) :
    List SaleItem :=
  match items with
  | [] => []
  | it :: rest =>
    { id := nid, sale_id := saleId, product_id := it.product_id,
      quantity := it.quantity, unit_price := it.selling_price,
      cost_price := costOf ps it.product_id,
      profit := itemProfit ps it } :: loopItems rest saleId (nid + 1) ps

/-- The `for (const item of items)` loop of `POST /api/sales`: looks the
product up (throwing when it is missing, as reading `product.cost_price` of
`undefined` does), inserts the `sale_items` row and decrements stock, while
accumulating `totalAmount` and `totalProfit`. -/
def salesLoop (items : List SaleItemReq) (saleId : Nat) (a pft : Rat)
    (st : DBState) : Except String (DBState × Rat × Rat) :=
  match items with
  | [] => Except.ok (st, a, pft)
  | it :: rest =>
    match findProduct st it.product_id with
    | none => Except.error "TypeError: cannot read properties of undefined"
    | some product =>
      let profit := (it.selling_price - product.cost_price) * it.quantity
      let amount := it.selling_price * it.quantity
      let row : SaleItem :=
        { id := st.next_sale_item_id, sale_id := saleId,
          product_id := it.product_id, quantity := it.quantity,
          unit_price := it.selling_price, cost_price := product.cost_price,
          profit := profit }
      salesLoop rest saleId (a + amount) (pft + profit)
        { st with
          sale_items := st.sale_items ++ [row],
          next_sale_item_id := st.next_sale_item_id + 1,
          products := applyItem it st.products }

/-- Transaction body of `POST /api/sales`: insert the sale row with zero
totals, run the item loop, then back-fill the totals. -/
def postSaleBody (items : List SaleItemReq) (st : DBState) :
    Except String DBState :=
  match salesLoop items st.next_sale_id 0 0
    { st with
      sales := st.sales ++
        [{ id := st.next_sale_id, total_amount := 0, total_profit := 0,
           created_at := st.today }],
      next_sale_id := st.next_sale_id + 1 } with
  | Except.error e => Except.error e
  | Except.ok (st2, totalAmount, totalProfit) =>
    Except.ok
      { st2 with
        sales := st2.sales.map (fun s => if s.id == st.next_sale_id then
          { s with total_amount := totalAmount, total_profit := totalProfit }
          else s) }

/-- Transaction body of `POST /api/withdrawals`.
`pid = (type === 'item' && product_id !== 0) ? product_id : null`; binding an
absent (`undefined`) `product_id` throws before inserting, a non-null `pid`
must satisfy the foreign key, and stock is decremented by exactly 1 when
`type === 'item' && pid` is truthy. -/
def postWithdrawalBody (r : WithdrawalReq) (st : DBState) :
    Except String DBState :=
  if r.wtype == "item" && r.product_id != some 0 then
    match r.product_id with
    | none => Except.error "TypeError: cannot bind undefined"
    | some n =>
      if (findProduct st n).isSome then
        Except.ok
          { st with
            withdrawals := st.withdrawals ++
              [{ id := st.next_withdrawal_id, wtype := r.wtype,
                 product_id := some n, amount := r.amount,
                 description := r.description, created_at := st.today }],
            next_withdrawal_id := st.next_withdrawal_id + 1,
            products := st.products.map (fun p => if p.id == n then
              { p with quantity := p.quantity - 1 } else p) }
      else Except.error "FOREIGN KEY constraint failed"
  else
    Except.ok
      { st with
        withdrawals := st.withdrawals ++
          [{ id := st.next_withdrawal_id, wtype := r.wtype,
             product_id := none, amount := r.amount,
             description := r.description, created_at := st.today }],
        next_withdrawal_id := st.next_withdrawal_id + 1 }

/-- Transaction body of `POST /api/stock-arrivals`: insert the arrival row
(foreign key on `product_id`), then add the quantity and overwrite the
product's `cost_price`. -/
def postStockArrivalBody (r : ArrivalReq) (st : DBState) :
    Except String DBState :=
  if (findProduct st r.product_id).isSome then
    Except.ok
      { st with
        stock_arrivals := st.stock_arrivals ++
          [{ id := st.next_arrival_id, product_id := r.product_id,
             quantity := r.quantity, cost_price := r.cost_price,
             created_at := st.today }],
        next_arrival_id := st.next_arrival_id + 1,
        products := st.products.map (fun p => if p.id == r.product_id then
          { p with quantity := p.quantity + r.quantity,
                   cost_price := r.cost_price } else p) }
  else Except.error "FOREIGN KEY constraint failed"

/-- The restore loop of `DELETE /api/sales/:id`:
`UPDATE products SET quantity = quantity + ? WHERE id = ?` per item. -/
def restoreLoop (its : List SaleItem) (ps : List Product) : List Product :=
  match its with
  | [] => ps
  | it :: rest => restoreLoop rest
      (ps.map (fun p => if p.id == it.product_id then
        { p with quantity := p.quantity + it.quantity } else p))

/-- Transaction body of `DELETE /api/sales/:id`: add each sold quantity back,
then delete the sale's items and the sale row. -/
def deleteSaleBody (saleId : Nat) (st : DBState) : Except String DBState :=
  let items := st.sale_items.filter (fun it => it.sale_id == saleId)
  Except.ok
    { st with
      products := restoreLoop items st.products,
      sale_items := st.sale_items.filter (fun it => it.sale_id != saleId),
      sales := st.sales.filter (fun s => s.id != saleId) }

/-- Transaction body of `DELETE /api/withdrawals/:id`: add 1 back when the
row exists, has type `item` and a truthy (non-null, non-zero) `product_id`,
then delete the row. -/
def deleteWithdrawalBody (wid : Nat) (st : DBState) : Except String DBState :=
  let ps :=
    match st.withdrawals.find? (fun w => w.id == wid) with
    | some w =>
      if w.wtype == "item" && w.product_id.getD 0 != 0 then
        st.products.map (fun p => if p.id == w.product_id.getD 0 then
          { p with quantity := p.quantity + 1 } else p)
      else st.products
    | none => st.products
  Except.ok
    { st with
      products := ps,
      withdrawals := st.withdrawals.filter (fun w => w.id != wid) }

/-- Transaction body of `DELETE /api/stock-arrivals/:id`: when the arrival
exists, subtract its quantity from the product and delete the arrival row;
`cost_price` is not touched. -/
def deleteStockArrivalBody (aid : Nat) (st : DBState) :
    Except String DBState :=
  match st.stock_arrivals.find? (fun a => a.id == aid) with
  | none => Except.ok st
  | some a =>
    Except.ok
      { st with
        products := st.products.map (fun p => if p.id == a.product_id then
          { p with quantity := p.quantity - a.quantity } else p),
        stock_arrivals := st.stock_arrivals.filter (fun x => x.id != aid) }

/-- Transaction body of `DELETE /api/products/:id`: delete referencing
`sale_items`, `withdrawals` and `stock_arrivals` rows, the product row, then
every sale whose id is not among the remaining `sale_items.sale_id`s. -/
def deleteProductBody (pid : Nat) (st : DBState) : Except String DBState :=
  let si := st.sale_items.filter (fun it => it.product_id != pid)
  Except.ok
    { st with
      sale_items := si,
      withdrawals := st.withdrawals.filter (fun w => w.product_id != some pid),
      stock_arrivals := st.stock_arrivals.filter (fun a => a.product_id != pid),
      products := st.products.filter (fun p => p.id != pid),
      sales := st.sales.filter (fun s => si.any (fun it => it.sale_id == s.id)) }

/-- Observable effect of `db.transaction(...)()` inside a handler's
`try/catch`: the body's result with HTTP 200 (`true`), or — when any
statement throws — a full rollback to the input state with HTTP 500
(`false`). -/
def runTxn (body : DBState → Except String DBState) (st : DBState) :
    DBState × Bool :=
  match body st with
  | Except.ok st' => (st', true)
  | Except.error _ => (st, false)

/-- The `POST /api/sales` handler. -/
def postSale (items : List SaleItemReq) (st : DBState) : DBState × Bool :=
  runTxn (postSaleBody items) st

/-- The `POST /api/withdrawals` handler. -/
def postWithdrawal (r : WithdrawalReq) (st : DBState) : DBState × Bool :=
  runTxn (postWithdrawalBody r) st

/-- The `POST /api/stock-arrivals` handler. -/
def postStockArrival (r : ArrivalReq) (st : DBState) : DBState × Bool :=
  runTxn (postStockArrivalBody r) st

/-- The `DELETE /api/sales/:id` handler. -/
def deleteSale (saleId : Nat) (st : DBState) : DBState × Bool :=
  runTxn (deleteSaleBody saleId) st

/-- The `DELETE /api/withdrawals/:id` handler. -/
def deleteWithdrawal (wid : Nat) (st : DBState) : DBState × Bool :=
  runTxn (deleteWithdrawalBody wid) st

/-- The `DELETE /api/stock-arrivals/:id` handler. -/
def deleteStockArrival (aid : Nat) (st : DBState) : DBState × Bool :=
  runTxn (deleteStockArrivalBody aid) st

/-- The `DELETE /api/products/:id` handler. -/
def deleteProduct (pid : Nat) (st : DBState) : DBState × Bool :=
  runTxn (deleteProductBody pid) st

/-- SQL `SUM(...)`: `NULL` (here `none`) on an empty row set. -/
def sqlSum (l : List Rat) : Option Rat :=
  match l with
  | [] => none
  | _ => some l.sum

/-- The `totalProfit` field of `GET /api/dashboard`:
`(salesToday.total_profit || 0) - (withdrawalsToday.total || 0)`, where the
two subqueries filter by `date(created_at) = date(today)`. -/
def dashboardTotalProfit (st : DBState) : Rat :=
  let sp := sqlSum (((st.sales.filter
    (fun s => s.created_at == st.today)).map Sale.total_profit))
  let wt := sqlSum (((st.withdrawals.filter
    (fun w => w.created_at == st.today)).map Withdrawal.amount))
  sp.getD 0 - wt.getD 0

/-! Helper lemmas about the product-list maps used by the handlers. -/

/-- Finding by id commutes with a map that preserves ids. -/
theorem find?_map_of_id (f : Product → Product) (hf : ∀ p, (f p).id = p.id)
    (ps : List Product) (pid : Nat) :
    (ps.map f).find? (fun p => p.id == pid) =
      (ps.find? (fun p => p.id == pid)).map f := by
  induction ps with
  | nil => rfl
  | cons p rest ih =>
    by_cases h : p.id = pid
    · rw [List.map_cons, List.find?_cons_of_pos, List.find?_cons_of_pos]
      · rfl
      · simp [h]
      · simp [hf, h]
    · rw [List.map_cons, List.find?_cons_of_neg, List.find?_cons_of_neg, ih]
      · simp [h]
      · simp [hf, h]

/-- Mapping an id- and cost-preserving function over the products does not
change the cost price read for any id. -/
theorem costOf_map (f : Product → Product) (hf : ∀ p, (f p).id = p.id)
    (hc : ∀ p, (f p).cost_price = p.cost_price) (ps : List Product)
    (pid : Nat) : costOf (ps.map f) pid = costOf ps pid := by
  unfold costOf
  rw [find?_map_of_id f hf]
  cases ps.find? (fun p => p.id == pid) with
  | none => rfl
  | some p => simp [hc]

/-- The sale loop's stock decrement preserves every cost price read. -/
theorem costOf_applyItem (it : SaleItemReq) (ps : List Product) (pid : Nat) :
    costOf (applyItem it ps) pid = costOf ps pid := by
  unfold applyItem
  apply costOf_map <;> intro p <;> by_cases h : p.id = it.product_id <;> simp [h]

/-- The sale loop's stock decrement preserves which ids exist. -/
theorem isSome_find?_applyItem (it : SaleItemReq) (ps : List Product)
    (pid : Nat) :
    ((applyItem it ps).find? (fun p => p.id == pid)).isSome =
      (ps.find? (fun p => p.id == pid)).isSome := by
  unfold applyItem
  rw [find?_map_of_id]
  · cases ps.find? (fun p => p.id == pid) <;> rfl
  · intro p; by_cases h : p.id = it.product_id <;> simp [h]

/-- The per-item profit only depends on cost prices, so it is unchanged by a
stock decrement. -/
theorem itemProfit_applyItem (it it' : SaleItemReq) (ps : List Product) :
    itemProfit (applyItem it ps) it' = itemProfit ps it' := by
  unfold itemProfit
  rw [costOf_applyItem]

/-- The rows built by the sale loop only read cost prices, so they are
unchanged by a stock decrement. -/
theorem loopItems_applyItem (items : List SaleItemReq) (saleId nid : Nat)
    (it : SaleItemReq) (ps : List Product) :
    loopItems items saleId nid (applyItem it ps) =
      loopItems items saleId nid ps := by
  induction items generalizing nid with
  | nil => rfl
  | cons a rest ih =>
    unfold loopItems
    rw [costOf_applyItem, itemProfit_applyItem, ih]

/-- The sequential stock decrements of the sale loop act on each product row
independently: every product loses the total quantity of the request items
that name its id. -/
theorem applyItems_eq_map (items : List SaleItemReq) (ps : List Product) :
    applyItems items ps = ps.map (fun p =>
      { p with quantity := p.quantity -
          ((items.filter (fun it => it.product_id == p.id)).map
            SaleItemReq.quantity).sum }) := by
  induction items generalizing ps with
  | nil =>
    unfold applyItems
    refine ((List.map_congr_left ?_).trans (List.map_id ps)).symm
    intro p _
    simp
  | cons it rest ih =>
    show applyItems rest (applyItem it ps) = _
    rw [ih, applyItem, List.map_map]
    apply List.map_congr_left
    intro p _
    simp only [Function.comp_apply]
    by_cases h : p.id = it.product_id
    · have hb : (it.product_id == p.id) = true := by simp [h]
      simp [h, List.filter_cons, hb, Product.mk.injEq, sub_sub]
    · have hb : (it.product_id == p.id) = false := by
        simp only [beq_eq_false_iff_ne, ne_eq]
        exact fun hh => h hh.symm
      simp [h, List.filter_cons, hb]

/-- The restore loop of a sale undo acts on each product row independently:
every product gains the total quantity of the sale items that name its id. -/
theorem restoreLoop_eq_map (its : List SaleItem) (ps : List Product) :
    restoreLoop its ps = ps.map (fun p =>
      { p with quantity := p.quantity +
          ((its.filter (fun it => it.product_id == p.id)).map
            SaleItem.quantity).sum }) := by
  induction its generalizing ps with
  | nil =>
    unfold restoreLoop
    refine ((List.map_congr_left ?_).trans (List.map_id ps)).symm
    intro p _
    simp
  | cons it rest ih =>
    show restoreLoop rest _ = _
    rw [ih, List.map_map]
    apply List.map_congr_left
    intro p _
    simp only [Function.comp_apply]
    by_cases h : p.id = it.product_id
    · have hb : (it.product_id == p.id) = true := by simp [h]
      simp [h, List.filter_cons, hb, Product.mk.injEq, add_assoc]
    · have hb : (it.product_id == p.id) = false := by
        simp only [beq_eq_false_iff_ne, ne_eq]
        exact fun hh => h hh.symm
      simp [h, List.filter_cons, hb]

/-- Every row the sale loop inserts carries the sale's id. -/
theorem loopItems_sale_id (items : List SaleItemReq) (saleId nid : Nat)
    (ps : List Product) :
    ∀ it ∈ loopItems items saleId nid ps, it.sale_id = saleId := by
  induction items generalizing nid with
  | nil => intro it h; cases h
  | cons a rest ih =>
    intro it h
    rcases List.mem_cons.mp h with h1 | h1
    · subst h1; rfl
    · exact ih (nid + 1) it h1

/-- Grouping the loop's inserted rows by product id and summing their
quantities gives the same totals as grouping the request items. -/
theorem loopItems_filter_qsum (items : List SaleItemReq) (saleId nid : Nat)
    (ps : List Product) (pid : Nat) :
    (((loopItems items saleId nid ps).filter
        (fun it => it.product_id == pid)).map SaleItem.quantity).sum =
      ((items.filter (fun it => it.product_id == pid)).map
        SaleItemReq.quantity).sum := by
  induction items generalizing nid with
  | nil => rfl
  | cons a rest ih =>
    unfold loopItems
    by_cases h : a.product_id = pid
    · simp [List.filter_cons, h, ih]
    · simp [List.filter_cons, h, ih]

/-- The sale loop succeeds when every requested product id exists, and its
effect is: stock decremented per item, the loop's rows appended to
`sale_items`, the row counter advanced, and the running totals increased by
the per-item amounts and profits (computed from the cost prices the loop
reads, which the loop itself never modifies). -/
theorem salesLoop_ok (items : List SaleItemReq) (saleId : Nat) (a pft : Rat)
    (st : DBState)
    (hex : ∀ it ∈ items,
      (st.products.find? (fun p => p.id == it.product_id)).isSome) :
    salesLoop items saleId a pft st = Except.ok
      ({ st with
         products := applyItems items st.products,
         sale_items := st.sale_items ++
           loopItems items saleId st.next_sale_item_id st.products,
         next_sale_item_id := st.next_sale_item_id + items.length },
       a + (items.map itemAmount).sum,
       pft + (items.map (itemProfit st.products)).sum) := by
  induction items generalizing a pft st with
  | nil =>
    simp [salesLoop, applyItems, loopItems]
  | cons it rest ih =>
    obtain ⟨product, hp⟩ := Option.isSome_iff_exists.mp (hex it (by simp))
    have hex' : ∀ x ∈ rest,
        ((applyItem it st.products).find?
          (fun p => p.id == x.product_id)).isSome := by
      intro x hx
      rw [isSome_find?_applyItem]
      exact hex x (by simp [hx])
    have hp' : findProduct st it.product_id = some product := hp
    have hcost : costOf st.products it.product_id = product.cost_price := by
      unfold costOf
      rw [hp]
      rfl
    unfold salesLoop
    rw [hp']
    refine (ih _ _ _ hex').trans ?_
    refine congrArg Except.ok ?_
    simp only [Prod.mk.injEq]
    refine ⟨?_, ?_, ?_⟩
    · simp only [DBState.mk.injEq, true_and, and_true]
      refine ⟨rfl, ?_, ?_⟩
      · rw [loopItems_applyItem]
        unfold loopItems
        rw [List.append_assoc, List.singleton_append, hcost]
        simp only [itemProfit, hcost]
        cases rest with
        | nil => rfl
        | cons b rs => rfl
      · simp only [List.length_cons]
        omega
    · unfold itemAmount
      simp [add_assoc]
    · rw [List.map_congr_left (fun x _ => itemProfit_applyItem it x st.products)]
      simp only [List.map_cons, List.sum_cons]
      rw [add_assoc]
      unfold itemProfit
      rw [hcost]

/-- Characterization of a successful `POST /api/sales` transaction body: when
every requested product id exists, the body commits the decremented stock,
the appended sale and item rows, and back-fills the totals on the sale row. -/
theorem postSaleBody_ok (items : List SaleItemReq) (st : DBState)
    (hex : ∀ it ∈ items, (findProduct st it.product_id).isSome) :
    postSaleBody items st = Except.ok
      { st with
        products := applyItems items st.products,
        sales := (st.sales ++
          [({ id := st.next_sale_id, total_amount := 0, total_profit := 0,
              created_at := st.today } : Sale)]).map
          (fun s => if s.id == st.next_sale_id then
            { s with total_amount := (items.map itemAmount).sum,
                     total_profit := (items.map (itemProfit st.products)).sum }
            else s),
        sale_items := st.sale_items ++
          loopItems items st.next_sale_id st.next_sale_item_id st.products,
        next_sale_id := st.next_sale_id + 1,
        next_sale_item_id := st.next_sale_item_id + items.length } := by
  have h1 := salesLoop_ok items st.next_sale_id 0 0
    { st with
      sales := st.sales ++
        [{ id := st.next_sale_id, total_amount := 0, total_profit := 0,
           created_at := st.today }],
      next_sale_id := st.next_sale_id + 1 } hex
  unfold postSaleBody
  rw [h1]
  simp [zero_add]

/-! Concrete fixtures used by the witness theorems. -/

/-- Sample product 1 (from the seed data). -/
def pW1 : Product :=
  { id := 1, name := "Dahl (Red)", unit_type := "weight", cost_price := 180,
    selling_price := 220, quantity := 50, min_stock := 10 }

/-- Sample product 2 (from the seed data). -/
def pW2 : Product :=
  { id := 2, name := "Sugar", unit_type := "weight", cost_price := 150,
    selling_price := 180, quantity := 100, min_stock := 20 }

/-- Sample database holding the two products and empty ledgers. -/
def stW : DBState :=
  { products := [pW1, pW2], sales := [], sale_items := [], withdrawals := [],
    stock_arrivals := [], next_sale_id := 1, next_sale_item_id := 1,
    next_withdrawal_id := 1, next_arrival_id := 1, today := 45 }

/-- Sample sale request: 2 units of product 1 and 3 units of product 2. -/
def itemsW : List SaleItemReq :=
  [{ product_id := 1, quantity := 2, selling_price := 220 },
   { product_id := 2, quantity := 3, selling_price := 190 }]

/-- C1: a `POST /api/sales` request whose items all name existing products
succeeds with no precondition on stock levels; afterwards each product's
quantity has decreased by exactly the total quantity the request's items
sold of it, and the sale row carries `total_amount` equal to the sum of
`selling_price * quantity` and `total_profit` equal to the sum of
`(selling_price - cost_price) * quantity`, where the cost price is the one
the loop reads (`itemProfit st.products`; the loop itself never changes any
`cost_price`, so the value read during the loop is the pre-sale one). -/
theorem sale_decrements_stock_and_totals (items : List SaleItemReq)
    (st : DBState)
    (hex : ∀ it ∈ items, (findProduct st it.product_id).isSome) :
    (postSale items st).2 = true ∧
    (∀ p ∈ st.products, ∃ p' ∈ (postSale items st).1.products,
      p'.id = p.id ∧
      p'.quantity = p.quantity -
        ((items.filter (fun it => it.product_id == p.id)).map
          SaleItemReq.quantity).sum) ∧
    (∃ s ∈ (postSale items st).1.sales, s.id = st.next_sale_id ∧
      s.total_amount = (items.map itemAmount).sum ∧
      s.total_profit = (items.map (itemProfit st.products)).sum) := by
  have hb := postSaleBody_ok items st hex
  have hps : postSale items st =
      ({ st with
         products := applyItems items st.products,
         sales := (st.sales ++
           [({ id := st.next_sale_id, total_amount := 0, total_profit := 0,
               created_at := st.today } : Sale)]).map
           (fun s => if s.id == st.next_sale_id then
             { s with total_amount := (items.map itemAmount).sum,
                      total_profit := (items.map (itemProfit st.products)).sum }
             else s),
         sale_items := st.sale_items ++
           loopItems items st.next_sale_id st.next_sale_item_id st.products,
         next_sale_id := st.next_sale_id + 1,
         next_sale_item_id := st.next_sale_item_id + items.length }, true) := by
    unfold postSale runTxn
    rw [hb]
  refine ⟨by rw [hps], ?_, ?_⟩
  · intro p hp
    rw [hps]
    simp only
    rw [applyItems_eq_map]
    exact ⟨_, List.mem_map_of_mem _ hp, rfl, rfl⟩
  · rw [hps]
    simp only [List.mem_map, List.mem_append, List.mem_singleton]
    refine ⟨_, ⟨_, Or.inr rfl, rfl⟩, ?_⟩
    simp

/-- Witness for C1 at a concrete sale of 2 units of product 1 and 3 units of
product 2 against the sample database. -/
theorem sale_decrements_stock_and_totals_witness :
    (∀ it ∈ itemsW, (findProduct stW it.product_id).isSome) ∧
    ((postSale itemsW stW).2 = true ∧
     (∀ p ∈ stW.products, ∃ p' ∈ (postSale itemsW stW).1.products,
       p'.id = p.id ∧
       p'.quantity = p.quantity -
         ((itemsW.filter (fun it => it.product_id == p.id)).map
           SaleItemReq.quantity).sum) ∧
     (∃ s ∈ (postSale itemsW stW).1.sales, s.id = stW.next_sale_id ∧
       s.total_amount = (itemsW.map itemAmount).sum ∧
       s.total_profit = (itemsW.map (itemProfit stW.products)).sum)) :=
  ⟨by decide, sale_decrements_stock_and_totals itemsW stW (by decide)⟩

/-- When some requested product id has no row, the sale loop throws (reading
`product.cost_price` of an `undefined` lookup result). -/
theorem salesLoop_missing (items : List SaleItemReq) (saleId : Nat)
    (a pft : Rat) (st : DBState)
    (h : ∃ it ∈ items,
      st.products.find? (fun p => p.id == it.product_id) = none) :
    salesLoop items saleId a pft st =
      Except.error "TypeError: cannot read properties of undefined" := by
  induction items generalizing a pft st with
  | nil => rcases h with ⟨it, hmem, _⟩; cases hmem
  | cons it rest ih =>
    rcases h with ⟨x, hx, hnone⟩
    unfold salesLoop
    cases hfind : findProduct st it.product_id with
    | none => rfl
    | some product =>
      rcases List.mem_cons.mp hx with h1 | h1
      · subst h1
        have hnone' : findProduct st x.product_id = none := hnone
        rw [hnone'] at hfind
        cases hfind
      · apply ih
        have h2 := isSome_find?_applyItem it st.products x.product_id
        rw [hnone, Option.isSome_none] at h2
        cases hh : (applyItem it st.products).find?
            (fun p => p.id == x.product_id) with
        | none => exact ⟨x, h1, hh⟩
        | some y => rw [hh] at h2; cases h2

/-- C9: a `POST /api/sales` request in which some item names no existing
product fails with HTTP 500 (flag `false`) and leaves the state completely
unchanged: the sale row inserted at the start of the transaction and all
side effects of earlier items are rolled back. -/
theorem sale_missing_product_rolls_back (items : List SaleItemReq)
    (st : DBState)
    (h : ∃ it ∈ items, findProduct st it.product_id = none) :
    postSale items st = (st, false) := by
  have hb : postSaleBody items st =
      Except.error "TypeError: cannot read properties of undefined" := by
    unfold postSaleBody
    rw [salesLoop_missing items st.next_sale_id 0 0
      { st with
        sales := st.sales ++
          [{ id := st.next_sale_id, total_amount := 0, total_profit := 0,
             created_at := st.today }],
        next_sale_id := st.next_sale_id + 1 } h]
  unfold postSale runTxn
  rw [hb]

/-- Sample sale request whose second item names the nonexistent product 99;
its first item names the existing product 1. -/
def itemsBadW : List SaleItemReq :=
  [{ product_id := 1, quantity := 2, selling_price := 220 },
   { product_id := 99, quantity := 1, selling_price := 5 }]

/-- Witness for C9: the sample request with a missing product is rejected
and the sample state is returned unchanged. -/
theorem sale_missing_product_rolls_back_witness :
    (∃ it ∈ itemsBadW, findProduct stW it.product_id = none) ∧
    postSale itemsBadW stW = (stW, false) :=
  ⟨by decide, sale_missing_product_rolls_back itemsBadW stW (by decide)⟩

/-- The observable state of a transaction-wrapped handler is either the
input state (rollback) or the full successful result of its body. -/
theorem runTxn_cases (body : DBState → Except String DBState) (st : DBState) :
    (runTxn body st).1 = st ∨ body st = Except.ok (runTxn body st).1 := by
  cases h : body st with
  | ok s => right; simp [runTxn, h]
  | error e => left; simp [runTxn, h]

/-- C2: every mutating operation (create sale, create withdrawal, create
stock arrival, undo sale, undo withdrawal, undo stock arrival, delete
product) is atomic: its observable result is either the unchanged input
state (when any statement in the transaction fails) or the transaction
body's fully applied successful state — a ledger row is never observable
without its product-quantity adjustment, nor vice versa. -/
theorem mutations_atomic (st : DBState) (items : List SaleItemReq)
    (w : WithdrawalReq) (r : ArrivalReq) (sid wid aid pid : Nat) :
    ((postSale items st).1 = st ∨
      postSaleBody items st = Except.ok (postSale items st).1) ∧
    ((postWithdrawal w st).1 = st ∨
      postWithdrawalBody w st = Except.ok (postWithdrawal w st).1) ∧
    ((postStockArrival r st).1 = st ∨
      postStockArrivalBody r st = Except.ok (postStockArrival r st).1) ∧
    ((deleteSale sid st).1 = st ∨
      deleteSaleBody sid st = Except.ok (deleteSale sid st).1) ∧
    ((deleteWithdrawal wid st).1 = st ∨
      deleteWithdrawalBody wid st = Except.ok (deleteWithdrawal wid st).1) ∧
    ((deleteStockArrival aid st).1 = st ∨
      deleteStockArrivalBody aid st =
        Except.ok (deleteStockArrival aid st).1) ∧
    ((deleteProduct pid st).1 = st ∨
      deleteProductBody pid st = Except.ok (deleteProduct pid st).1) :=
  ⟨runTxn_cases _ st, runTxn_cases _ st, runTxn_cases _ st, runTxn_cases _ st,
   runTxn_cases _ st, runTxn_cases _ st, runTxn_cases _ st⟩

/-- C3: a sale followed by its undo (`DELETE /api/sales/:id` on the sale just
created) is the identity on product rows — every involved product's quantity
is restored to exactly its pre-sale value — and the undo removes the sale's
`sale_items` rows and the sale row, restoring the `sales` and `sale_items`
tables as well. Freshness of the new sale id over the existing `sales` and
`sale_items` rows models the `AUTOINCREMENT` primary key. -/
theorem sale_then_undo_is_identity (items : List SaleItemReq) (st : DBState)
    (hex : ∀ it ∈ items, (findProduct st it.product_id).isSome)
    (hsfresh : ∀ s ∈ st.sales, s.id ≠ st.next_sale_id)
    (hifresh : ∀ it ∈ st.sale_items, it.sale_id ≠ st.next_sale_id) :
    (deleteSale st.next_sale_id (postSale items st).1).2 = true ∧
    (deleteSale st.next_sale_id (postSale items st).1).1.products =
      st.products ∧
    (deleteSale st.next_sale_id (postSale items st).1).1.sale_items =
      st.sale_items ∧
    (deleteSale st.next_sale_id (postSale items st).1).1.sales = st.sales := by
  have hb := postSaleBody_ok items st hex
  have hps : postSale items st =
      ({ st with
         products := applyItems items st.products,
         sales := (st.sales ++
           [({ id := st.next_sale_id, total_amount := 0, total_profit := 0,
               created_at := st.today } : Sale)]).map
           (fun s => if s.id == st.next_sale_id then
             { s with total_amount := (items.map itemAmount).sum,
                      total_profit := (items.map (itemProfit st.products)).sum }
             else s),
         sale_items := st.sale_items ++
           loopItems items st.next_sale_id st.next_sale_item_id st.products,
         next_sale_id := st.next_sale_id + 1,
         next_sale_item_id := st.next_sale_item_id + items.length }, true) := by
    unfold postSale runTxn
    rw [hb]
  rw [hps]
  unfold deleteSale runTxn deleteSaleBody
  simp only
  have hfilter_old : st.sale_items.filter
      (fun it => it.sale_id == st.next_sale_id) = [] :=
    List.filter_eq_nil_iff.mpr (fun it hit => by simp [hifresh it hit])
  have hfilter_new : (loopItems items st.next_sale_id st.next_sale_item_id
      st.products).filter (fun it => it.sale_id == st.next_sale_id) =
      loopItems items st.next_sale_id st.next_sale_item_id st.products :=
    List.filter_eq_self.mpr (fun it hit => by
      simp [loopItems_sale_id items st.next_sale_id st.next_sale_item_id
        st.products it hit])
  have hkeep_old : st.sale_items.filter
      (fun it => it.sale_id != st.next_sale_id) = st.sale_items :=
    List.filter_eq_self.mpr (fun it hit => by simp [hifresh it hit])
  have hkeep_new : (loopItems items st.next_sale_id st.next_sale_item_id
      st.products).filter (fun it => it.sale_id != st.next_sale_id) = [] :=
    List.filter_eq_nil_iff.mpr (fun it hit => by
      simp [loopItems_sale_id items st.next_sale_id st.next_sale_item_id
        st.products it hit])
  refine ⟨trivial, ?_, ?_, ?_⟩
  · rw [List.filter_append, hfilter_old, hfilter_new, List.nil_append,
      restoreLoop_eq_map, applyItems_eq_map, List.map_map]
    refine (List.map_congr_left ?_).trans (List.map_id st.products)
    intro p _
    simp only [Function.comp_apply]
    rw [loopItems_filter_qsum, sub_add_cancel]
    rfl
  · rw [List.filter_append, hkeep_old, hkeep_new, List.append_nil]
  · rw [List.map_append]
    have hmap_old : st.sales.map (fun s => if s.id == st.next_sale_id then
        { s with total_amount := (items.map itemAmount).sum,
                 total_profit := (items.map (itemProfit st.products)).sum }
        else s) = st.sales :=
      (List.map_congr_left (fun s hs => by simp [hsfresh s hs])).trans
        (List.map_id st.sales)
    rw [hmap_old, List.filter_append]
    have h1 : st.sales.filter (fun s => s.id != st.next_sale_id) = st.sales :=
      List.filter_eq_self.mpr (fun s hs => by simp [hsfresh s hs])
    rw [h1]
    simp

/-- Witness for C3: selling 2 of product 1 and 3 of product 2 from the
sample database and then deleting the created sale restores the database. -/
theorem sale_then_undo_is_identity_witness :
    ((∀ it ∈ itemsW, (findProduct stW it.product_id).isSome) ∧
     (∀ s ∈ stW.sales, s.id ≠ stW.next_sale_id) ∧
     (∀ it ∈ stW.sale_items, it.sale_id ≠ stW.next_sale_id)) ∧
    ((deleteSale stW.next_sale_id (postSale itemsW stW).1).2 = true ∧
     (deleteSale stW.next_sale_id (postSale itemsW stW).1).1.products =
       stW.products ∧
     (deleteSale stW.next_sale_id (postSale itemsW stW).1).1.sale_items =
       stW.sale_items ∧
     (deleteSale stW.next_sale_id (postSale itemsW stW).1).1.sales =
       stW.sales) :=
  ⟨⟨by decide, by decide, by decide⟩,
   sale_then_undo_is_identity itemsW stW (by decide) (by decide) (by decide)⟩

/-- The product list an item withdrawal commits does not depend on the
request's `amount` field: `amount` is only stored on the withdrawal row. -/
theorem postWithdrawal_products_amount_irrelevant (r : WithdrawalReq)
    (st : DBState) (a1 a2 : Rat) :
    (postWithdrawal { r with amount := a1 } st).1.products =
      (postWithdrawal { r with amount := a2 } st).1.products := by
  by_cases h1 : (r.wtype == "item" && r.product_id != some 0) = true
  · simp only [Bool.and_eq_true, beq_iff_eq, bne_iff_ne, ne_eq] at h1
    obtain ⟨hw, hne⟩ := h1
    cases hn : r.product_id with
    | none => simp [postWithdrawal, runTxn, postWithdrawalBody, hw, hne, hn]
    | some n =>
      have h0 : ¬n = 0 := fun h => hne (by rw [hn, h])
      by_cases h2 : (findProduct st n).isSome
      · simp [postWithdrawal, runTxn, postWithdrawalBody, hw, hne, hn, h0, h2]
      · simp [postWithdrawal, runTxn, postWithdrawalBody, hw, hne, hn, h0, h2]
  · simp [postWithdrawal, runTxn, postWithdrawalBody, h1]

/-- C4: a `POST /api/withdrawals` request of type `item` naming an existing
product (non-zero id, so it is not coerced to `NULL`) decrements that
product's quantity by exactly 1, whatever the request's `amount` is; the
`amount` field never influences the committed product list. -/
theorem item_withdrawal_decrements_one (r : WithdrawalReq) (st : DBState)
    (p : Product) (hr : r.wtype = "item") (hpid : r.product_id = some p.id)
    (hnz : p.id ≠ 0) (hp : p ∈ st.products) :
    (postWithdrawal r st).2 = true ∧
    (∃ p' ∈ (postWithdrawal r st).1.products, p'.id = p.id ∧
      p'.quantity = p.quantity - 1) ∧
    (∀ a1 a2 : Rat,
      (postWithdrawal { r with amount := a1 } st).1.products =
        (postWithdrawal { r with amount := a2 } st).1.products) := by
  have hex : (findProduct st p.id).isSome :=
    List.find?_isSome.mpr ⟨p, hp, by simp⟩
  have hb : postWithdrawalBody r st = Except.ok
      { st with
        withdrawals := st.withdrawals ++
          [{ id := st.next_withdrawal_id, wtype := r.wtype,
             product_id := some p.id, amount := r.amount,
             description := r.description, created_at := st.today }],
        next_withdrawal_id := st.next_withdrawal_id + 1,
        products := st.products.map (fun q => if q.id == p.id then
          { q with quantity := q.quantity - 1 } else q) } := by
    unfold postWithdrawalBody
    simp [hr, hpid, hnz, hex]
  refine ⟨?_, ?_, postWithdrawal_products_amount_irrelevant r st⟩
  · unfold postWithdrawal runTxn
    rw [hb]
  · unfold postWithdrawal runTxn
    rw [hb]
    exact ⟨_, List.mem_map_of_mem _ hp, by simp, by simp⟩

/-- Sample item-withdrawal request naming product 1 with an arbitrary
`amount` of 7777. -/
def wReqW : WithdrawalReq :=
  { wtype := "item", product_id := some 1, amount := 7777,
    description := "owner draw" }

/-- Witness for C4: the sample item withdrawal decrements product 1 from 50
to 49 even though its `amount` is 7777. -/
theorem item_withdrawal_decrements_one_witness :
    (wReqW.wtype = "item" ∧ wReqW.product_id = some pW1.id ∧ pW1.id ≠ 0 ∧
      pW1 ∈ stW.products) ∧
    ((postWithdrawal wReqW stW).2 = true ∧
     (∃ p' ∈ (postWithdrawal wReqW stW).1.products, p'.id = pW1.id ∧
       p'.quantity = pW1.quantity - 1) ∧
     (∀ a1 a2 : Rat,
       (postWithdrawal { wReqW with amount := a1 } stW).1.products =
         (postWithdrawal { wReqW with amount := a2 } stW).1.products)) :=
  ⟨⟨by decide, by decide, by decide, by decide⟩,
   item_withdrawal_decrements_one wReqW stW pW1 (by decide) (by decide)
     (by decide) (by decide)⟩

/-- Sample item-withdrawal request with the `product_id` field absent from
the JSON body (JavaScript `undefined`). -/
def wReqAbsentW : WithdrawalReq :=
  { wtype := "item", product_id := none, amount := 5,
    description := "spoilage" }

/-- Counterexample to C10 as stated: for an item withdrawal whose
`product_id` is absent, `pid` evaluates to `undefined` (not `null`), the
insert's parameter binding throws, and the handler returns HTTP 500 with the
state unchanged — no withdrawals row is recorded, contradicting the claim
that a row with `NULL` `product_id` is still recorded in this case. -/
theorem item_withdrawal_absent_pid_counterexample :
    postWithdrawal wReqAbsentW stW = (stW, false) ∧
    (postWithdrawal wReqAbsentW stW).1.withdrawals = [] := by decide

/-- C10 (amended): an item withdrawal with `product_id` equal to 0 records a
withdrawals row with `NULL` `product_id` and changes no product's quantity,
and undoing that withdrawal also changes no product's quantity; an item
withdrawal with `product_id` absent fails (HTTP 500) and records nothing. -/
theorem item_withdrawal_pid_zero_or_absent (r : WithdrawalReq) (st : DBState)
    (hr : r.wtype = "item") :
    (r.product_id = some 0 →
      (postWithdrawal r st).2 = true ∧
      (postWithdrawal r st).1.products = st.products ∧
      (postWithdrawal r st).1.withdrawals = st.withdrawals ++
        [{ id := st.next_withdrawal_id, wtype := r.wtype, product_id := none,
           amount := r.amount, description := r.description,
           created_at := st.today }] ∧
      ((∀ w ∈ st.withdrawals, w.id ≠ st.next_withdrawal_id) →
        (deleteWithdrawal st.next_withdrawal_id
          (postWithdrawal r st).1).1.products = st.products)) ∧
    (r.product_id = none → postWithdrawal r st = (st, false)) := by
  constructor
  · intro h0
    have hb : postWithdrawalBody r st = Except.ok
        { st with
          withdrawals := st.withdrawals ++
            [{ id := st.next_withdrawal_id, wtype := r.wtype,
               product_id := none, amount := r.amount,
               description := r.description, created_at := st.today }],
          next_withdrawal_id := st.next_withdrawal_id + 1 } := by
      unfold postWithdrawalBody
      simp [hr, h0]
    have hps : (postWithdrawal r st).1 =
        { st with
          withdrawals := st.withdrawals ++
            [{ id := st.next_withdrawal_id, wtype := r.wtype,
               product_id := none, amount := r.amount,
               description := r.description, created_at := st.today }],
          next_withdrawal_id := st.next_withdrawal_id + 1 } := by
      unfold postWithdrawal runTxn
      rw [hb]
    refine ⟨?_, ?_, ?_, ?_⟩
    · unfold postWithdrawal runTxn
      rw [hb]
    · rw [hps]
    · rw [hps]
    · intro hfresh
      rw [hps]
      unfold deleteWithdrawal runTxn deleteWithdrawalBody
      simp only
      have hfind : (st.withdrawals ++
          [({ id := st.next_withdrawal_id, wtype := r.wtype,
              product_id := none, amount := r.amount,
              description := r.description,
              created_at := st.today } : Withdrawal)]).find?
            (fun w => w.id == st.next_withdrawal_id) =
          some { id := st.next_withdrawal_id, wtype := r.wtype,
                 product_id := none, amount := r.amount,
                 description := r.description, created_at := st.today } := by
        rw [List.find?_append,
          List.find?_eq_none.mpr (fun w hw => by simp [hfresh w hw])]
        simp [List.find?]
      rw [hfind]
      simp [hr]
  · intro h0
    unfold postWithdrawal runTxn postWithdrawalBody
    simp [hr, h0]

/-- Sample item-withdrawal request with `product_id` 0. -/
def wReqZeroW : WithdrawalReq :=
  { wtype := "item", product_id := some 0, amount := 40,
    description := "no product" }

/-- Witness for C10 (amended) at the sample zero-`product_id` request. -/
theorem item_withdrawal_pid_zero_or_absent_witness :
    wReqZeroW.wtype = "item" ∧
    ((wReqZeroW.product_id = some 0 →
      (postWithdrawal wReqZeroW stW).2 = true ∧
      (postWithdrawal wReqZeroW stW).1.products = stW.products ∧
      (postWithdrawal wReqZeroW stW).1.withdrawals = stW.withdrawals ++
        [{ id := stW.next_withdrawal_id, wtype := wReqZeroW.wtype,
           product_id := none, amount := wReqZeroW.amount,
           description := wReqZeroW.description,
           created_at := stW.today }] ∧
      ((∀ w ∈ stW.withdrawals, w.id ≠ stW.next_withdrawal_id) →
        (deleteWithdrawal stW.next_withdrawal_id
          (postWithdrawal wReqZeroW stW).1).1.products = stW.products)) ∧
     (wReqZeroW.product_id = none → postWithdrawal wReqZeroW stW =
       (stW, false))) :=
  ⟨by decide, item_withdrawal_pid_zero_or_absent wReqZeroW stW (by decide)⟩

/-- C5: after `DELETE /api/products/:id`, no `sale_items`, `withdrawals` or
`stock_arrivals` row referencing the product remains, the product row is
gone, and every sale left with zero `sale_items` rows has been deleted
(every surviving sale still has at least one item row). -/
theorem delete_product_cascades (pid : Nat) (st : DBState) :
    (deleteProduct pid st).2 = true ∧
    (∀ it ∈ (deleteProduct pid st).1.sale_items, it.product_id ≠ pid) ∧
    (∀ w ∈ (deleteProduct pid st).1.withdrawals, w.product_id ≠ some pid) ∧
    (∀ a ∈ (deleteProduct pid st).1.stock_arrivals, a.product_id ≠ pid) ∧
    (∀ p ∈ (deleteProduct pid st).1.products, p.id ≠ pid) ∧
    (∀ s ∈ (deleteProduct pid st).1.sales,
      ∃ it ∈ (deleteProduct pid st).1.sale_items, it.sale_id = s.id) := by
  unfold deleteProduct runTxn deleteProductBody
  simp only
  refine ⟨trivial, ?_, ?_, ?_, ?_, ?_⟩
  · intro it hit
    have := List.of_mem_filter hit
    simpa using this
  · intro w hw
    have := List.of_mem_filter hw
    simpa using this
  · intro a ha
    have := List.of_mem_filter ha
    simpa using this
  · intro p hp
    have := List.of_mem_filter hp
    simpa using this
  · intro s hs
    have := List.of_mem_filter hs
    rw [List.any_eq_true] at this
    rcases this with ⟨it, hit, hids⟩
    exact ⟨it, hit, by simpa using hids⟩

/-- C6: `POST /api/stock-arrivals` for an existing product increments its
quantity by the arrival's quantity and unconditionally overwrites its
`cost_price` with the arrival's `cost_price` (no weighted averaging — every
other field of the product is untouched), while appending the matching
`stock_arrivals` row. -/
theorem stock_arrival_increments_and_overwrites (r : ArrivalReq)
    (st : DBState) (p : Product) (hp : p ∈ st.products)
    (hid : p.id = r.product_id) :
    (postStockArrival r st).2 = true ∧
    (∃ p' ∈ (postStockArrival r st).1.products, p'.id = p.id ∧
      p'.quantity = p.quantity + r.quantity ∧
      p'.cost_price = r.cost_price ∧
      p'.name = p.name ∧ p'.selling_price = p.selling_price ∧
      p'.min_stock = p.min_stock ∧ p'.unit_type = p.unit_type) ∧
    (postStockArrival r st).1.stock_arrivals = st.stock_arrivals ++
      [{ id := st.next_arrival_id, product_id := r.product_id,
         quantity := r.quantity, cost_price := r.cost_price,
         created_at := st.today }] := by
  have hex : (findProduct st r.product_id).isSome :=
    List.find?_isSome.mpr ⟨p, hp, by simp [hid]⟩
  have hb : postStockArrivalBody r st = Except.ok
      { st with
        stock_arrivals := st.stock_arrivals ++
          [{ id := st.next_arrival_id, product_id := r.product_id,
             quantity := r.quantity, cost_price := r.cost_price,
             created_at := st.today }],
        next_arrival_id := st.next_arrival_id + 1,
        products := st.products.map (fun q => if q.id == r.product_id then
          { q with quantity := q.quantity + r.quantity,
                   cost_price := r.cost_price } else q) } := by
    unfold postStockArrivalBody
    simp [hex]
  refine ⟨?_, ?_, ?_⟩
  · unfold postStockArrival runTxn
    rw [hb]
  · unfold postStockArrival runTxn
    rw [hb]
    exact ⟨_, List.mem_map_of_mem _ hp,
      by simp [hid], by simp [hid], by simp [hid], by simp [hid],
      by simp [hid], by simp [hid], by simp [hid]⟩
  · unfold postStockArrival runTxn
    rw [hb]

/-- Sample stock-arrival request: 7 more units of product 1 at a new cost
price of 200. -/
def arrReqW : ArrivalReq :=
  { product_id := 1, quantity := 7, cost_price := 200 }

/-- Witness for C6 at the sample arrival for product 1. -/
theorem stock_arrival_increments_and_overwrites_witness :
    (pW1 ∈ stW.products ∧ pW1.id = arrReqW.product_id) ∧
    ((postStockArrival arrReqW stW).2 = true ∧
     (∃ p' ∈ (postStockArrival arrReqW stW).1.products, p'.id = pW1.id ∧
       p'.quantity = pW1.quantity + arrReqW.quantity ∧
       p'.cost_price = arrReqW.cost_price ∧
       p'.name = pW1.name ∧ p'.selling_price = pW1.selling_price ∧
       p'.min_stock = pW1.min_stock ∧ p'.unit_type = pW1.unit_type) ∧
     (postStockArrival arrReqW stW).1.stock_arrivals =
       stW.stock_arrivals ++
       [{ id := stW.next_arrival_id, product_id := arrReqW.product_id,
          quantity := arrReqW.quantity, cost_price := arrReqW.cost_price,
          created_at := stW.today }]) :=
  ⟨⟨by decide, by decide⟩,
   stock_arrival_increments_and_overwrites arrReqW stW pW1 (by decide)
     (by decide)⟩

/-- C7: `DELETE /api/stock-arrivals/:id` on an existing arrival decrements
the referenced product's quantity by the arrival's recorded quantity and
changes nothing else about any product: the committed product list is
exactly the old one with that single quantity update, so the product's
`cost_price` keeps its current value (the pre-arrival cost price is not
restored) and every other field and every other product row is unchanged;
the arrival row itself is removed. -/
theorem delete_stock_arrival_decrements_keeps_cost (aid : Nat) (st : DBState)
    (a : StockArrival)
    (ha : st.stock_arrivals.find? (fun x => x.id == aid) = some a) :
    (deleteStockArrival aid st).2 = true ∧
    (deleteStockArrival aid st).1.products = st.products.map
      (fun p => if p.id == a.product_id then
        { p with quantity := p.quantity - a.quantity } else p) ∧
    (deleteStockArrival aid st).1.stock_arrivals =
      st.stock_arrivals.filter (fun x => x.id != aid) ∧
    (∀ p ∈ st.products, p.id = a.product_id →
      ∃ p' ∈ (deleteStockArrival aid st).1.products, p'.id = p.id ∧
        p'.quantity = p.quantity - a.quantity ∧
        p'.cost_price = p.cost_price ∧ p'.name = p.name ∧
        p'.selling_price = p.selling_price ∧ p'.min_stock = p.min_stock ∧
        p'.unit_type = p.unit_type) ∧
    (∀ p ∈ st.products, p.id ≠ a.product_id →
      p ∈ (deleteStockArrival aid st).1.products) := by
  have hb : deleteStockArrivalBody aid st = Except.ok
      { st with
        products := st.products.map (fun p => if p.id == a.product_id then
          { p with quantity := p.quantity - a.quantity } else p),
        stock_arrivals := st.stock_arrivals.filter (fun x => x.id != aid) } := by
    unfold deleteStockArrivalBody
    rw [ha]
  refine ⟨?_, ?_, ?_, ?_, ?_⟩
  · unfold deleteStockArrival runTxn
    rw [hb]
  · unfold deleteStockArrival runTxn
    rw [hb]
  · unfold deleteStockArrival runTxn
    rw [hb]
  · intro p hp hpid
    unfold deleteStockArrival runTxn
    rw [hb]
    exact ⟨_, List.mem_map_of_mem _ hp,
      by simp [hpid], by simp [hpid], by simp [hpid], by simp [hpid],
      by simp [hpid], by simp [hpid], by simp [hpid]⟩
  · intro p hp hpid
    unfold deleteStockArrival runTxn
    rw [hb]
    have : (fun q => if q.id == a.product_id then
        { q with quantity := q.quantity - a.quantity } else q) p = p := by
      simp [hpid]
    exact this ▸ List.mem_map_of_mem _ hp

/-- Sample stock-arrival row referencing product 1, used by the C7 witness. -/
def arrRowW : StockArrival :=
  { id := 3, product_id := 1, quantity := 7, cost_price := 200,
    created_at := 44 }

/-- Sample database in which arrival `arrRowW` is recorded. -/
def stArrW : DBState :=
  { stW with stock_arrivals := [arrRowW], next_arrival_id := 4 }

/-- Witness for C7 at the sample arrival. -/
theorem delete_stock_arrival_decrements_keeps_cost_witness :
    (stArrW.stock_arrivals.find? (fun x => x.id == 3) = some arrRowW) ∧
    ((deleteStockArrival 3 stArrW).2 = true ∧
     (deleteStockArrival 3 stArrW).1.products = stArrW.products.map
       (fun p => if p.id == arrRowW.product_id then
         { p with quantity := p.quantity - arrRowW.quantity } else p) ∧
     (deleteStockArrival 3 stArrW).1.stock_arrivals =
       stArrW.stock_arrivals.filter (fun x => x.id != 3) ∧
     (∀ p ∈ stArrW.products, p.id = arrRowW.product_id →
       ∃ p' ∈ (deleteStockArrival 3 stArrW).1.products, p'.id = p.id ∧
         p'.quantity = p.quantity - arrRowW.quantity ∧
         p'.cost_price = p.cost_price ∧ p'.name = p.name ∧
         p'.selling_price = p.selling_price ∧ p'.min_stock = p.min_stock ∧
         p'.unit_type = p.unit_type) ∧
     (∀ p ∈ stArrW.products, p.id ≠ arrRowW.product_id →
       p ∈ (deleteStockArrival 3 stArrW).1.products)) :=
  ⟨by decide,
   delete_stock_arrival_decrements_keeps_cost 3 stArrW arrRowW (by decide)⟩

/-- C8: the `totalProfit` field of `GET /api/dashboard` equals the sum of
`total_profit` over the sales created today minus the sum of `amount` over
all withdrawals (cash and item alike) created today; each SQL `SUM` is
`NULL` on an empty row set and is coerced to 0 by `|| 0`, matching the empty
list sums on the right-hand side. -/
theorem dashboard_totalProfit_eq (st : DBState) :
    dashboardTotalProfit st =
      ((st.sales.filter (fun s => s.created_at == st.today)).map
        Sale.total_profit).sum -
      ((st.withdrawals.filter (fun w => w.created_at == st.today)).map
        Withdrawal.amount).sum := by
  cases h1 : (st.sales.filter (fun s => s.created_at == st.today)).map
      Sale.total_profit with
  | nil =>
    cases h2 : (st.withdrawals.filter (fun w => w.created_at == st.today)).map
        Withdrawal.amount with
    | nil => simp [dashboardTotalProfit, sqlSum, h1, h2]
    | cons y ys => simp [dashboardTotalProfit, sqlSum, h1, h2]
  | cons x xs =>
    cases h2 : (st.withdrawals.filter (fun w => w.created_at == st.today)).map
        Withdrawal.amount with
    | nil => simp [dashboardTotalProfit, sqlSum, h1, h2]
    | cons y ys => simp [dashboardTotalProfit, sqlSum, h1, h2]
